import Mathlib

/-!
Verification of the error-diagnostics subsystem (src/messages.cc): message
templates and their formatting, CallSite accessors, error-object construction
and message-listener dispatch. Definitions are shallow embeddings of the C++
source; external collaborators (the heap object model, script tables, the
wasm name table) are modelled explicitly where the source calls out to them.
-/

/-- Script compilation kind, from Script::COMPILATION_TYPE_*. -/
inductive CompilationType where
  | normal
  | evalCompiled
deriving DecidableEq, Repr

/-- Script type, from Script::TYPE_* (only the native distinction is used). -/
inductive ScriptTypeKind where
  | normalScript
  | nativeScript
deriving DecidableEq, Repr

/-- A script as seen by messages.cc: its name object (a String or not a
String, the latter rendered as none), its compilation type, its type, and its
table of line-end offsets (the offset-to-line table consumed by
Script::GetLineNumber, which lives outside this file). -/
structure Script where
  scriptName : Option String
  compilationType : CompilationType
  scriptKind : ScriptTypeKind
  lineEnds : List Nat
deriving DecidableEq, Repr

/-- Modelled from the spec: Script::GetLineNumber is outside this file; the
spec says line numbers are derived from the captured offset via the owning
script by its offset table. The 0-based line of an offset is the number of
line-end offsets strictly before it. -/
def Script.lineNumberAt (s : Script) (pos : Int) : Nat :=
  (s.lineEnds.filter (fun e => (e : Int) < pos)).length

/-- Modelled from the spec: Script::GetColumnNumber is outside this file; the
0-based column of an offset is its distance from the start of its line. -/
def Script.columnNumberAt (s : Script) (pos : Int) : Int :=
  let starts : List Nat := s.lineEnds.filter (fun e => (e : Int) < pos)
  let lineStart : Nat := starts.foldl (fun a e => max a (e + 1)) 0
  pos - (lineStart : Int)

/-- Metadata of one JSFunction as consumed by messages.cc. Handle identity of
functions is rendered as equality of funId. sharedName is
fun.shared().name() when that object is a String (none otherwise);
getNameResult is the string produced by JSFunction::GetName; script is
fun.shared().script() when that object is a Script. -/
structure FunInfo where
  funId : Nat
  sharedName : Option String
  getNameResult : String
  script : Option Script
deriving DecidableEq, Repr

mutual
/-- A heap value as consumed by messages.cc. vnum stands for a Smi.
Functions carry only their FunInfo; their JSObject part (own properties of a
function object) is not populated in this model. -/
inductive Value where
  | undefined
  | vnull
  | vbool (b : Bool)
  | vstr (s : String)
  | vnum (n : Int)
  | vsym (s : String)
  | vfun (f : FunInfo)
  | vobj (o : JSObj)

/-- A JSObject: whether it is a JSError, whether it is the JSGlobalProxy,
whether access checks are needed on it, its own properties in order, and its
prototype link. -/
inductive JSObj where
  | mk (isError : Bool) (isGlobalProxy : Bool) (accessCheck : Bool)
       (props : List PropEntry) (proto : ProtoRef)

/-- One own property: a data property or an accessor pair, with its key and
enumerability. Accessor getter and setter are identified by funId. -/
inductive PropEntry where
  | dataProp (key : String) (enumerable : Bool) (value : Value)
  | accessorProp (key : String) (enumerable : Bool)
      (getter : Option Nat) (setter : Option Nat)

/-- The prototype slot of an object: null, another JSObject, or a JSReceiver
that is not a JSObject (a proxy), at which the walks in this file stop. -/
inductive ProtoRef where
  | nullProto
  | objProto (o : JSObj)
  | proxyProto
end

def JSObj.isErrorObj : JSObj → Bool
  | .mk e _ _ _ _ => e

def JSObj.isGlobalProxyObj : JSObj → Bool
  | .mk _ g _ _ _ => g

def JSObj.accessCheckNeeded : JSObj → Bool
  | .mk _ _ a _ _ => a

def JSObj.ownProps : JSObj → List PropEntry
  | .mk _ _ _ ps _ => ps

def Value.isUndefined : Value → Bool
  | .undefined => true
  | _ => false

def Value.isNull : Value → Bool
  | .vnull => true
  | _ => false

def Value.isString : Value → Bool
  | .vstr _ => true
  | _ => false

def Value.isSmi : Value → Bool
  | .vnum _ => true
  | _ => false

def Value.isJSFunction : Value → Bool
  | .vfun _ => true
  | _ => false

/-- JSFunctions are JSObjects on the V8 heap, so both count here. -/
def Value.isJSObject : Value → Bool
  | .vobj _ => true
  | .vfun _ => true
  | _ => false

def Value.isJSReceiver (v : Value) : Bool := v.isJSObject

def Value.isJSError : Value → Bool
  | .vobj o => o.isErrorObj
  | _ => false

def Value.isGlobalProxy : Value → Bool
  | .vobj o => o.isGlobalProxyObj
  | _ => false

/-- Identity comparison of a value against a function handle
(Handle::is_identical_to in the source), rendered through funId. -/
def Value.identFun : Value → FunInfo → Bool
  | .vfun g, f => g.funId == f.funId
  | _, _ => false

/-- Object::ToInt32: succeeds on numbers. Values that do not convert make
the surrounding CHECK fail. -/
def Value.toInt32? : Value → Option Int
  | .vnum n => some n
  | _ => none

/-! ## MessageTemplate: the catalog and FormatMessage -/

/-- Modelled from the spec: the MESSAGE_TEMPLATES table lives in messages.h,
which is not part of this source; the spec describes it as a static
id-to-template-string table, each template holding zero to three positional
placeholders. A representative closed catalog. -/
def messageTemplates : List String :=
  ["Unsupported",
   "%",
   "% is not a function",
   "Cannot read property % of %",
   "Conversion from % to % failed at %",
   "100%% certain that % exists"]

/-- MessageTemplate::TemplateString: the registered format string for an id,
or none (NULL) when the id is unknown or is kLastMessage. -/
def templateString (templateIndex : Nat) : Option String :=
  messageTemplates[templateIndex]?

/-- The failure FormatMessage signals on an unknown template id
(isolate.ThrowIllegalOperation in the source). -/
inductive FormatError where
  | illegalOperation
deriving DecidableEq, Repr

/-- The template scan of MessageTemplate::FormatMessage, with the one
character lookahead of the source: a percent followed by another percent
emits one literal percent; any other percent (also at the end of the
template, where the lookahead sees the terminator) appends args[i] and bumps
i; every other character is copied. args beyond the third placeholder read
as the empty string (the source asserts i stays below 3 and the registered
catalog respects it). -/
def scanTemplateIdx : List Char → List String → Nat → String
  | [], _, _ => ""
  | [c], args, i =>
    if c = '%' then args.getD i "" ++ scanTemplateIdx [] args (i + 1)
    else String.singleton c ++ scanTemplateIdx [] args i
  | c :: c2 :: rest, args, i =>
    if c = '%' then
      if c2 = '%' then "%" ++ scanTemplateIdx rest args i
      else (args.getD i "") ++ scanTemplateIdx (c2 :: rest) args (i + 1)
    else String.singleton c ++ scanTemplateIdx (c2 :: rest) args i

/-- MessageTemplate::FormatMessage(template_index, arg0, arg1, arg2):
unknown id throws (ConfigurationError); otherwise the template is scanned
and the result built. -/
def formatMessage3 (templateIndex : Nat) (arg0 arg1 arg2 : String) :
    Except FormatError String :=
  match templateString templateIndex with
  | none => Except.error FormatError.illegalOperation
  | some t => Except.ok (scanTemplateIdx t.toList [arg0, arg1, arg2] 0)

/-- A token of a template, as the spec reads the scan: a literal character,
a literal percent written as a doubled percent, or a placeholder. -/
inductive TemplateTok where
  | lit (c : Char)
  | pctLit
  | placeholder
deriving DecidableEq, Repr

/-- Tokenization of a template following the spec wording: a doubled percent
is one literal percent, any other percent is a placeholder. -/
def lexTemplate : List Char → List TemplateTok
  | [] => []
  | [c] =>
    if c = '%' then [TemplateTok.placeholder] else [TemplateTok.lit c]
  | c :: c2 :: rest =>
    if c = '%' then
      if c2 = '%' then TemplateTok.pctLit :: lexTemplate rest
      else TemplateTok.placeholder :: lexTemplate (c2 :: rest)
    else TemplateTok.lit c :: lexTemplate (c2 :: rest)

/-- Spec-side rendering over tokens: each placeholder consumes the next
positional argument in order; a literal percent renders as one percent. -/
def renderToks : List TemplateTok → List String → String
  | [], _ => ""
  | TemplateTok.lit c :: t, args => String.singleton c ++ renderToks t args
  | TemplateTok.pctLit :: t, args => "%" ++ renderToks t args
  | TemplateTok.placeholder :: t, args => args.headD "" ++ renderToks t args.tail

/-- The result_string computation of the single dynamic-value FormatMessage
overload: a string argument is taken verbatim; any other argument goes
through conv, the restricted side-effect-suppressing conversion
(Execution::TryCall of the no-side-effects to-string function, an external
collaborator, where none is a failed call); a failed call or a non-string
result is none. -/
def argToStringResult (conv : Value → Option Value) (arg : Value) :
    Option String :=
  match arg with
  | Value.vstr s => some s
  | _ =>
    match conv arg with
    | some (Value.vstr s) => some s
    | _ => none

/-- MessageTemplate::FormatMessage(isolate, template_index, arg), the single
dynamic-value overload: a failed or non-string conversion yields the literal
fallback, as does a failure of the template formatting itself. The
String::Flatten at the end is the identity on the value. -/
def formatMessageOne (conv : Value → Option Value) (templateIndex : Nat)
    (arg : Value) : String :=
  match argToStringResult conv arg with
  | none => "<error>"
  | some s =>
    match formatMessage3 templateIndex s "" "" with
    | Except.ok r => r
    | Except.error _ => "<error>"

/-! ## CallSite -/

/-- The call-site object handed to the CallSite constructor, rendered as the
values of its five well-known symbol-keyed data properties
(JSObject::GetDataProperty with the call_site symbols; an absent property
reads as undefined). -/
structure CallSiteInput where
  funProp : Value
  receiverProp : Value
  wasmObjProp : Value
  wasmFuncIndexProp : Value
  positionProp : Value

/-- The constructed CallSite. A none field is a handle the constructor left
null (respectively an int it left uninitialized): for an invalid site the
constructor returns early and fun_, receiver_, wasm_obj_ stay null and pos_
stays uninitialized. -/
structure CallSite where
  funField : Option FunInfo
  receiverField : Option Value
  wasmObjField : Option Value
  wasmFuncIndexField : Option Int
  posField : Option Int

/-- The CallSite constructor. A JSFunction under the function symbol makes a
JavaScript site (function and receiver recorded); otherwise a Smi under the
wasm-function-index symbol makes a wasm site; otherwise the constructor
returns early with every field in its default state. The position CHECK
aborts (none) when the position property does not convert to an int32. -/
def callSiteInit (o : CallSiteInput) : Option CallSite :=
  match o.funProp with
  | Value.vfun f =>
    match o.positionProp.toInt32? with
    | some p => some ⟨some f, some o.receiverProp, none, none, some p⟩
    | none => none
  | _ =>
    if o.wasmFuncIndexProp.isSmi then
      match o.wasmFuncIndexProp, o.positionProp.toInt32? with
      | Value.vnum idx, some p => some ⟨none, none, some o.wasmObjProp, some idx, some p⟩
      | _, _ => none
    else
      some ⟨none, none, none, none, none⟩

/-- Modelled from the spec: IsJavaScript lives in messages.h (not in this
source); the spec classifies a site as JsFrame exactly when the function
marker was recorded. -/
def CallSite.IsJavaScript (cs : CallSite) : Bool := cs.funField.isSome

/-- Modelled from the spec: IsWasm lives in messages.h (not in this source);
the spec classifies a site as WasmFrame exactly when the wasm marker was
recorded. -/
def CallSite.IsWasm (cs : CallSite) : Bool := cs.wasmObjField.isSome

/-- CallSite::GetFileName. Accessor results are wrapped in Option: none is a
null-handle dereference (a crash in the source). The fileName of a JS frame
whose function has a real script is that script name object (undefined when
the script name is not a string); otherwise null. -/
def CallSite.GetFileName (cs : CallSite) : Option Value :=
  if !cs.IsJavaScript then some Value.vnull
  else
    match cs.funField with
    | none => none
    | some f =>
      match f.script with
      | none => some Value.vnull
      | some sc =>
        match sc.scriptName with
        | some n => some (Value.vstr n)
        | none => some Value.undefined

/-- CallSite::GetFunctionName. wasmLookup is
wasm::GetWasmFunctionNameOrNull, an external collaborator. On a non-wasm
site the source dereferences fun_ unconditionally (JSFunction::GetName), so
an invalid site crashes: none. -/
def CallSite.GetFunctionName (cs : CallSite)
    (wasmLookup : Value → Int → Value) : Option Value :=
  if cs.IsWasm then
    match cs.wasmObjField, cs.wasmFuncIndexField with
    | some w, some i => some (wasmLookup w i)
    | _, _ => none
  else
    match cs.funField with
    | none => none
    | some f =>
      if f.getNameResult.length != 0 then some (Value.vstr f.getNameResult)
      else
        match f.script with
        | some sc =>
          if sc.compilationType = CompilationType.evalCompiled then
            some (Value.vstr "eval")
          else some Value.vnull
        | none => some Value.vnull

/-- The key of an own property entry. -/
def PropEntry.entryKey : PropEntry → String
  | PropEntry.dataProp k _ _ => k
  | PropEntry.accessorProp k _ _ _ => k

/-- Whether an own property entry is enumerable. -/
def PropEntry.entryEnumerable : PropEntry → Bool
  | PropEntry.dataProp _ e _ => e
  | PropEntry.accessorProp _ e _ _ => e

/-- Whether a found entry binds the function: a data property whose value is
identical to it, or an accessor pair whose getter or setter is it. -/
def PropEntry.entryMatches (e : PropEntry) (f : FunInfo) : Bool :=
  match e with
  | PropEntry.dataProp _ _ v => v.identFun f
  | PropEntry.accessorProp _ _ g s => g == some f.funId || s == some f.funId

/-- First own property under a key, as the LookupIterator finds it. -/
def findEntry (ps : List PropEntry) (name : String) : Option PropEntry :=
  ps.find? (fun e => e.entryKey = name)

/-- CheckMethodName with LookupIterator::OWN_SKIP_INTERCEPTOR: the lookup
stops in the ACCESS_CHECK state on an access-checked holder (so the check is
false there); otherwise the own property under the name, if any, is compared
against the function. -/
def checkMethodNameOwn (o : JSObj) (name : String) (f : FunInfo) : Bool :=
  match o with
  | JSObj.mk _ _ ac ps _ =>
    if ac then false
    else
      match findEntry ps name with
      | some e => e.entryMatches f
      | none => false

/-- CheckMethodName with LookupIterator::PROTOTYPE_CHAIN_SKIP_INTERCEPTOR:
the chain is walked until a holder owns the name; an access-checked holder
stops the lookup (false), as does a proxy link or the end of the chain. -/
def checkMethodNameChain (o : JSObj) (name : String) (f : FunInfo) : Bool :=
  match o with
  | JSObj.mk _ _ ac ps pr =>
    if ac then false
    else
      match findEntry ps name with
      | some e => e.entryMatches f
      | none =>
        match pr with
        | ProtoRef.objProto o2 => checkMethodNameChain o2 name f
        | _ => false

/-- KeyAccumulator::GetOwnEnumPropertyKeys: own enumerable keys in order. -/
def enumKeys (ps : List PropEntry) : List String :=
  (ps.filter (fun e => e.entryEnumerable)).map (fun e => e.entryKey)

/-- Character-list rendering of the IsUtf8EqualTo test with allow-prefix set:
whether the first list is a leading segment of the second. -/
def charsLeadSegment : List Char → List Char → Bool
  | [], _ => true
  | _ :: _, [] => false
  | p :: ps, c :: cs => p == c && charsLeadSegment ps cs

/-- ES2015 getter and setter name stripping in GetMethodName: a leading
marker of four characters is cut off (NewProperSubString from 4). -/
def stripGetSet (s : String) : String :=
  let cs := s.toList
  if charsLeadSegment ("get ".toList) cs || charsLeadSegment ("set ".toList) cs then
    String.mk (cs.drop 4)
  else s

/-- The inner key loop of the GetMethodName walk on one chain level: a
second successful CheckMethodName while a result is already held returns
null immediately (error ()); otherwise the single held result survives. -/
def walkKeys (o : JSObj) (f : FunInfo) :
    List String → Option String → Except Unit (Option String)
  | [], acc => Except.ok acc
  | k :: rest, acc =>
    if checkMethodNameOwn o k f then
      match acc with
      | some _ => Except.error ()
      | none => walkKeys o f rest (some k)
    else walkKeys o f rest acc

/-- The prototype walk of GetMethodName, starting at the receiver: an
access-checked level breaks the whole walk keeping the accumulated result, a
proxy link or the chain end ends it normally, and each level feeds its own
enumerable keys through the key loop. -/
def walkChain (f : FunInfo) (acc : Option String) : JSObj → Except Unit (Option String)
  | o@(JSObj.mk _ _ ac ps pr) =>
    if ac then Except.ok acc
    else
      match walkKeys o f (enumKeys ps) acc with
      | Except.error u => Except.error u
      | Except.ok acc2 =>
        match pr with
        | ProtoRef.objProto o2 => walkChain f acc2 o2
        | _ => Except.ok acc2

/-- The declared-name fast path of GetMethodName: when the shared name is a
string, strip a get or set marker and test the receiver chain for a binding
of the function under that stripped name. -/
def fastPathName (f : FunInfo) (o : JSObj) : Option String :=
  match f.sharedName with
  | some n =>
    let n2 := stripGetSet n
    if checkMethodNameChain o n2 f then some n2 else none
  | none => none

/-- The body of CallSite::GetMethodName on a receiver already converted to a
JSObject: the declared-name fast path, then the accumulating walk, where a
duplicate aborts to null and a missing result is null. -/
def getMethodNameObj (f : FunInfo) (o : JSObj) : Value :=
  match fastPathName f o with
  | some n => Value.vstr n
  | none =>
    match walkChain f none o with
    | Except.error _ => Value.vnull
    | Except.ok (some n) => Value.vstr n
    | Except.ok none => Value.vnull

/-- Modelled from the spec: Object::ToObject is an external collaborator
(the spec consumes the heap model for conversions). Objects convert to
themselves; the object part of a function and the wrapper object of a
primitive carry no own properties here; null and undefined do not convert
(the call sites below guard them). -/
def toObjectModel : Value → JSObj
  | Value.vobj o => o
  | _ => JSObj.mk false false false [] ProtoRef.nullProto

/-- CallSite::GetMethodName: null unless a JS frame whose receiver is
neither null nor undefined; the converted receiver then goes through the
fast path and the walk. -/
def CallSite.GetMethodName (cs : CallSite) : Option Value :=
  if !cs.IsJavaScript then some Value.vnull
  else
    match cs.receiverField, cs.funField with
    | some r, some f =>
      if r.isNull || r.isUndefined then some Value.vnull
      else some (getMethodNameObj f (toObjectModel r))
    | _, _ => none

/-- CallSite::GetLineNumber: the garbage parameter stands for the
uninitialized pos_ of an invalid site; the source reads it only on the left
of a short-circuit conjunction whose right side is false there. -/
def CallSite.GetLineNumber (cs : CallSite) (garbage : Int) : Int :=
  let p := cs.posField.getD garbage
  if p ≥ 0 && cs.IsJavaScript then
    match cs.funField with
    | some f =>
      match f.script with
      | some sc => (sc.lineNumberAt p : Int) + 1
      | none => -1
    | none => -1
  else -1

/-- CallSite::GetColumnNumber, same shape as GetLineNumber. -/
def CallSite.GetColumnNumber (cs : CallSite) (garbage : Int) : Int :=
  let p := cs.posField.getD garbage
  if p ≥ 0 && cs.IsJavaScript then
    match cs.funField with
    | some f =>
      match f.script with
      | some sc => sc.columnNumberAt p + 1
      | none => -1
    | none => -1
  else -1

/-- CallSite::IsNative: a JS frame whose script is of native type. -/
def CallSite.IsNative (cs : CallSite) : Bool :=
  if !cs.IsJavaScript then false
  else
    match cs.funField with
    | some f =>
      match f.script with
      | some sc => sc.scriptKind = ScriptTypeKind.nativeScript
      | none => false
    | none => false

/-- CallSite::IsEval: a JS frame whose script was compiled by eval. -/
def CallSite.IsEval (cs : CallSite) : Bool :=
  if !cs.IsJavaScript then false
  else
    match cs.funField with
    | some f =>
      match f.script with
      | some sc => sc.compilationType = CompilationType.evalCompiled
      | none => false
    | none => false

/-- CallSite::IsToplevel: false on wasm; otherwise the receiver handle is
dereferenced (none on an invalid site) and tested for global proxy, null or
undefined. -/
def CallSite.IsToplevel (cs : CallSite) : Option Bool :=
  if cs.IsWasm then some false
  else
    match cs.receiverField with
    | none => none
    | some r => some (r.isGlobalProxy || r.isNull || r.isUndefined)

/-- JSReceiver::GetDataProperty (external to this file but fixed semantics):
walk the chain for the name; a data property gives its value, an accessor or
an access-checked holder or a missing name gives undefined. -/
def getDataProperty (name : String) : JSObj → Value
  | JSObj.mk _ _ ac ps pr =>
    if ac then Value.undefined
    else
      match findEntry ps name with
      | some (PropEntry.dataProp _ _ v) => v
      | some (PropEntry.accessorProp _ _ _ _) => Value.undefined
      | none =>
        match pr with
        | ProtoRef.objProto o2 => getDataProperty name o2
        | _ => Value.undefined

/-- The distinguished receiver sentinel builtin exit frames pass for
constructor calls (heap.call_site_constructor_symbol, compared by
identity). -/
def Value.isCtorSymbol : Value → Bool
  | Value.vsym s => s = "call_site_constructor_symbol"
  | _ => false

/-- CallSite::IsConstructor: the receiver handle is dereferenced first (none
on an invalid site) and compared with the constructor sentinel; then a JS
frame with a JSObject receiver compares the constructor data property of
the receiver against the function. The source casts the receiver to JSObject;
the object part of a function receiver holds no properties in this model. -/
def CallSite.IsConstructor (cs : CallSite) : Option Bool :=
  match cs.receiverField with
  | none => none
  | some r =>
    if r.isCtorSymbol then some true
    else if !cs.IsJavaScript || !r.isJSObject then some false
    else
      match cs.funField with
      | some f => some ((getDataProperty "constructor" (toObjectModel r)).identFun f)
      | none => some false

/-- Spec-side reading of the GetMethodName walk: the own enumerable property
names, level by level from the receiver down, that bind the function, with
the walk cut at an access-checked level or a proxy link exactly as the
source cuts it. -/
def chainMatches (f : FunInfo) : JSObj → List String
  | JSObj.mk ie gp ac ps pr =>
    if ac then []
    else
      (enumKeys ps).filter
          (fun k => checkMethodNameOwn (JSObj.mk ie gp ac ps pr) k f) ++
        (match pr with
         | ProtoRef.objProto o2 => chainMatches f o2
         | _ => [])

/-! ## ConstructError -/

/-- FrameSkipMode from the source. -/
inductive FrameSkipMode where
  | SKIP_NONE
  | SKIP_FIRST
  | SKIP_UNTIL_SEEN
deriving DecidableEq, Repr

/-- The attributes of an installed property: DONT_ENUM leaves writable and
configurable true and enumerable false. -/
structure PropDesc where
  value : String
  writable : Bool
  enumerable : Bool
  configurable : Bool
deriving DecidableEq, Repr

/-- The error object under construction: the lineage receiver JSObject::New
allocated along, the named properties installed so far, whether the detailed
trace was captured, and the simple-trace capture with its mode and caller. -/
structure ErrObj where
  lineage : Value
  props : List (String × PropDesc)
  detailedCaptured : Bool
  simpleCapture : Option (FrameSkipMode × Option Value)

/-- The failure switches of the external collaborators ConstructError calls
into: object allocation, Object::ToString on the message, the message
property definition, and the two stack captures. -/
structure ConstructEnv where
  newObjectFails : Bool
  toStringFun : Value → Option String
  setMessageFails : Bool
  detailedFails : Bool
  simpleFails : Bool

/-- The fresh object JSObject::New allocates: lineage comes from new_target
when it is a JSReceiver, else from target; no properties yet, no traces. -/
def errInitial (target : FunInfo) (newTarget : Value) : ErrObj :=
  ⟨if newTarget.isJSReceiver then newTarget else Value.vfun target,
   [], false, none⟩

/-- Step 3 of ConstructError: a present message is coerced (failure
propagates) and installed under the message key with DONT_ENUM attributes
(failure propagates); an undefined message installs nothing. -/
def installMessage (env : ConstructEnv) (message : Value) (err : ErrObj) :
    Option ErrObj :=
  if !message.isUndefined then
    match env.toStringFun message with
    | none => none
    | some s =>
      if env.setMessageFails then none
      else
        some { err with
          props := err.props ++ [("message", ⟨s, true, false, true⟩)] }
  else some err

/-- The optional detailed-trace capture of ConstructError (failure
propagates). -/
def captureDetailedStep (env : ConstructEnv) (suppressDetailed : Bool)
    (err : ErrObj) : Option ErrObj :=
  if !suppressDetailed then
    if env.detailedFails then none
    else some { err with detailedCaptured := true }
  else some err

/-- The simple-trace capture of ConstructError, after the mode refinement:
SKIP_FIRST with a JSFunction new-target becomes SKIP_UNTIL_SEEN of that
new-target as caller (failure propagates). -/
def captureSimpleStep (env : ConstructEnv) (newTarget : Value)
    (mode : FrameSkipMode) (err : ErrObj) : Option ErrObj :=
  let refined : FrameSkipMode × Option Value :=
    if mode = FrameSkipMode.SKIP_FIRST && newTarget.isJSFunction then
      (FrameSkipMode.SKIP_UNTIL_SEEN, some newTarget)
    else (mode, none)
  if env.simpleFails then none
  else some { err with simpleCapture := some refined }

/-- ConstructError: allocation, message installation, detailed capture and
simple capture in sequence, each failure returning none whole
(ASSIGN_RETURN_ON_EXCEPTION): no partial object escapes. -/
def constructError (env : ConstructEnv) (target : FunInfo) (newTarget : Value)
    (message : Value) (mode : FrameSkipMode) (suppressDetailed : Bool) :
    Option ErrObj :=
  if env.newObjectFails then none
  else
    match installMessage env message (errInitial target newTarget) with
    | none => none
    | some err2 =>
      match captureDetailedStep env suppressDetailed err2 with
      | none => none
      | some err3 => captureSimpleStep env newTarget mode err3

/-! ## MessageHandler: DefaultMessageReport and ReportMessage -/

/-- A message location: owning script and its start and end offsets, with
the optional triggering function. -/
structure MessageLocation where
  script : Script
  startPos : Int
  endPos : Int
  locFun : Option FunInfo

/-- The JSMessageObject fields ReportMessage consumes: the template id and
the one argument (set_argument rewrites the latter). -/
structure MessageObject where
  msgType : Nat
  argument : Value

/-- MessageHandler::DefaultMessageReport, as the text of the one line it
prints (without the trailing newline PrintF appends): with a location the
script name when it is a string, else the unknown marker, then the raw start
position of the location, then the localized text; without a location just
the text. -/
def defaultMessageReport (loc : Option MessageLocation) (text : String) : String :=
  match loc with
  | none => text
  | some l =>
    let nameText :=
      match l.script.scriptName with
      | some n => n
      | none => "<unknown>"
    nameText ++ ":" ++ toString l.startPos ++ ": " ++ text

/-- The format the spec claims for a located default report: the script name
or the unknown marker, a colon, the 1-based line of the location start, a
colon and a space, then the text. -/
def claimedDefaultReportLine (l : MessageLocation) (text : String) : String :=
  let nameText :=
    match l.script.scriptName with
    | some n => n
    | none => "<unknown>"
  nameText ++ ":" ++ toString (l.script.lineNumberAt l.startPos + 1) ++ ": " ++ text

/-- The per-isolate state ReportMessage touches: the pending failure slot,
the scheduled failure slot, and the listener registry in order, a tombstoned
slot being none (the undefined entry the source skips). -/
structure IsolateState where
  pendingException : Option Value
  scheduledException : Option Value
  listeners : List (Option (Nat × Value))

/-- The external behavior ReportMessage depends on: the restricted
no-side-effects stringification, Object::ToString under the silent catcher,
and per callback what it throws and what deferred failure it schedules. -/
structure ReportEnv where
  noSideEffectsToString : Value → Option Value
  objectToString : Value → Option Value
  callbackThrows : Nat → Option Value
  callbackSchedules : Nat → Option Value

/-- v8 TryCatch (verbose off) around one listener callback: whatever the
body raises is caught inside the scope and dropped when it ends, so the
pending slot after the scope is what it was before. -/
def tryCatchAbsorb (before inside : Option Value) : Option Value :=
  match inside with
  | some _ => before
  | none => before

/-- The normalization ReportMessage performs on an object argument: a JSError
goes through the restricted stringification, any other object through
Object::ToString under a silent catcher; a failed conversion substitutes the
literal "exception"; the result overwrites the argument. -/
def normalizeArgument (env : ReportEnv) (v : Value) : Value :=
  if v.isJSObject then
    match (if v.isJSError then env.noSideEffectsToString v else env.objectToString v) with
    | some s => s
    | none => Value.vstr "exception"
  else v

/-- The listener loop of ReportMessage: tombstoned slots are skipped whole
(their iteration clears nothing); a live listener is called with the message
and either its registration data or, when that data is undefined, the
snapshotted exception; a throw inside the callback is absorbed by the
per-listener TryCatch; after the call any scheduled failure is cleared. The
result is the invocation list, the pending slot and the scheduled slot. -/
def dispatchLoop (env : ReportEnv) (exceptionVal : Value) :
    List (Option (Nat × Value)) → Option Value → Option Value →
    List (Nat × Value) → List (Nat × Value) × Option Value × Option Value
  | [], pending, sched, acc => (acc, pending, sched)
  | none :: rest, pending, sched, acc =>
    dispatchLoop env exceptionVal rest pending sched acc
  | some (cb, data) :: rest, pending, sched, acc =>
    let arg := if data.isUndefined then exceptionVal else data
    let pendingAfter := tryCatchAbsorb pending (env.callbackThrows cb)
    let schedAfterCall :=
      match env.callbackSchedules cb with
      | some e => some e
      | none => sched
    let schedCleared : Option Value :=
      if schedAfterCall.isSome then none else schedAfterCall
    dispatchLoop env exceptionVal rest pendingAfter schedCleared (acc ++ [(cb, arg)])

/-- What ReportMessage leaves behind: the (rewritten) message argument, the
lines the default reporter printed, the listener invocations with the value
each was passed, and the final pending and scheduled slots. -/
structure ReportOutcome where
  normalizedArgument : Value
  defaultReports : List String
  invocations : List (Nat × Value)
  finalPending : Option Value
  finalScheduled : Option Value

/-- MessageHandler::ReportMessage: snapshot the pending failure for the
listeners and clear it (Isolate::ExceptionScope restores it on every exit
path); normalize an object argument in place; with an empty registry run the
default reporter once on the localized message (single-argument
FormatMessage of the message template over the argument) and clear any
scheduled failure; otherwise run the listener loop. -/
def reportMessage (env : ReportEnv) (loc : Option MessageLocation)
    (msg : MessageObject) (st : IsolateState) : ReportOutcome :=
  let exceptionVal :=
    match st.pendingException with
    | some e => e
    | none => Value.undefined
  let argNorm := normalizeArgument env msg.argument
  if st.listeners.length == 0 then
    { normalizedArgument := argNorm
      defaultReports :=
        [defaultMessageReport loc
          (formatMessageOne env.noSideEffectsToString msg.msgType argNorm)]
      invocations := []
      finalPending := st.pendingException
      finalScheduled := none }
  else
    let r := dispatchLoop env exceptionVal st.listeners none st.scheduledException []
    { normalizedArgument := argNorm
      defaultReports := []
      invocations := r.1
      finalPending := st.pendingException
      finalScheduled := r.2.2 }

/-- The environment of the C9 witness: listener 1 throws and schedules a
deferred failure, listener 2 is clean. -/
def envC9 : ReportEnv :=
  ⟨fun _ => none, fun _ => none,
   fun cb => if cb == 1 then some (Value.vstr "listener-throw") else none,
   fun cb => if cb == 1 then some (Value.vstr "listener-sched") else none⟩

/-- The isolate state of the C9 witness: a live listener with data, a
tombstoned slot, and a later live listener with undefined data. -/
def stC9 : IsolateState :=
  ⟨none, none, [some (1, Value.vstr "d1"), none, some (2, Value.undefined)]⟩

/-- The error object of the C10 witness. -/
def errObjC10 : JSObj := JSObj.mk true false false [] ProtoRef.nullProto

/-- The script of the C1 instances: named, one line end at offset 10. -/
def scriptC1 : Script :=
  ⟨some "a.js", CompilationType.normal, ScriptTypeKind.normalScript, [10]⟩

/-- The located message of the C1 instances: start offset 5 inside the
first line. -/
def locC1 : MessageLocation := ⟨scriptC1, 5, 7, none⟩

/-- The message of the C1 instances: template 1 is the bare placeholder, so
the localized text is the argument itself. -/
def msgC1 : MessageObject := ⟨1, Value.vstr "boom"⟩

/-- The trivial conversion environment of the C1 instances. -/
def envC1 : ReportEnv :=
  ⟨fun _ => none, fun _ => none, fun _ => none, fun _ => none⟩

/-- The empty-registry isolate state of the C1 instances. -/
def stC1 : IsolateState := ⟨none, none, []⟩

/-- A call-site object bearing neither the JavaScript-function marker nor
the wasm-function-index marker. -/
def invalidCallSiteInput : CallSiteInput :=
  ⟨Value.undefined, Value.undefined, Value.undefined, Value.undefined,
   Value.undefined⟩

/-- The site the constructor produces from it: every handle null, the
position uninitialized. -/
def invalidCallSite : CallSite := ⟨none, none, none, none, none⟩

/-- The keys of a key list that CheckMethodName accepts on one holder. -/
def keysMatches (o : JSObj) (f : FunInfo) (keys : List String) : List String :=
  keys.filter (fun k => checkMethodNameOwn o k f)

/-- Resolution of an accumulated candidate against further matches, as the
walk resolves them: no match keeps the candidate, a single fresh match with
no candidate becomes the candidate, any second match is the duplicate
failure. -/
def dupResolve (acc : Option String) (ms : List String) :
    Except Unit (Option String) :=
  match acc, ms with
  | some a, [] => Except.ok (some a)
  | some _, _ :: _ => Except.error ()
  | none, [] => Except.ok none
  | none, [k] => Except.ok (some k)
  | none, _ :: _ :: _ => Except.error ()

/-- Spec-side method-name result of the walk alone: the single name binding
the function across the walked chain, null on zero or several matches. -/
def specMethodName (f : FunInfo) (o : JSObj) : Value :=
  match chainMatches f o with
  | [n] => Value.vstr n
  | _ => Value.vnull

/-- The function of the C3 instances: shared name greet. -/
def fC3 : FunInfo := ⟨1, some "greet", "greet", none⟩

/-- The receiver of the C3 instances: the same function bound under the two
own enumerable names greet and hello. -/
def oC3 : JSObj :=
  JSObj.mk false false false
    [PropEntry.dataProp "greet" true (Value.vfun fC3),
     PropEntry.dataProp "hello" true (Value.vfun fC3)]
    ProtoRef.nullProto

/-- The JS-frame site of the C3 instances. -/
def siteC3 : CallSite :=
  ⟨some fC3, some (Value.vobj oC3), none, none, some 0⟩


/-- The environment of the C8 witness: every collaborator succeeds. -/
def envC8 : ConstructEnv := ⟨false, fun _ => some "m", false, false, false⟩

/-- The function new-target of the C8 witness. -/
def newTargetC8 : Value := Value.vfun ⟨7, none, "", none⟩

/-- The error object the C8 witness construction produces. -/
def errC8 : ErrObj :=
  ⟨newTargetC8, [], true,
   some (FrameSkipMode.SKIP_UNTIL_SEEN, some newTargetC8)⟩

/-! ## Theorems -/

theorem getD_eq_headD_drop (l : List String) (i : Nat) :
    l.getD i "" = (l.drop i).headD "" := by
  induction l generalizing i with
  | nil => cases i <;> rfl
  | cons a t ih =>
    cases i with
    | zero => rfl
    | succ j => exact ih j

theorem strAppendEmpty (s : String) : s ++ "" = s := by
  cases s with
  | mk data =>
    show String.mk (data ++ []) = String.mk data
    rw [List.append_nil]

theorem scan_eq_render (cs : List Char) (args : List String) (i : Nat) :
    scanTemplateIdx cs args i = renderToks (lexTemplate cs) (args.drop i) := by
  match cs with
  | [] => rfl
  | [c] =>
    by_cases hc : c = '%'
    · subst hc
      simp only [scanTemplateIdx, lexTemplate, renderToks, if_pos rfl, if_true]
      rw [getD_eq_headD_drop]
    · simp only [scanTemplateIdx, lexTemplate, renderToks, if_neg hc]
  | c :: c2 :: rest =>
    by_cases hc : c = '%'
    · subst hc
      by_cases hc2 : c2 = '%'
      · subst hc2
        simp only [scanTemplateIdx, lexTemplate, renderToks, if_pos rfl, if_true]
        rw [scan_eq_render rest args i]
      · simp only [scanTemplateIdx, lexTemplate, renderToks, if_pos rfl,
          if_neg hc2]
        rw [getD_eq_headD_drop, scan_eq_render (c2 :: rest) args (i + 1),
          List.tail_drop]
        simp
    · simp only [scanTemplateIdx, lexTemplate, renderToks, if_neg hc]
      rw [scan_eq_render (c2 :: rest) args i]
termination_by cs.length

/-- C4: formatting signals the configuration error (ThrowIllegalOperation)
exactly on an unregistered template id: a registered id never signals it and
an unregistered id always does, whatever the arguments. -/
theorem c4_template_validity (templateIndex : Nat) (a0 a1 a2 : String) :
    formatMessage3 templateIndex a0 a1 a2
        = Except.error FormatError.illegalOperation ↔
      templateString templateIndex = none := by
  unfold formatMessage3
  cases h : templateString templateIndex <;> simp

theorem formatMessage3_renders (templateIndex : Nat) (a0 a1 a2 t : String)
    (h : templateString templateIndex = some t) :
    formatMessage3 templateIndex a0 a1 a2 =
      Except.ok (renderToks (lexTemplate t.toList) [a0, a1, a2]) := by
  unfold formatMessage3
  rw [h]
  exact congrArg Except.ok (scan_eq_render t.toList [a0, a1, a2] 0)

/-- C5: the scan of a registered template is exactly the token rendering the
spec describes: a doubled percent emits one literal percent, every other
percent consumes the next positional argument in declared order and appends
its text wherever it occurs, and every other character is copied; so N
placeholders fed N markers reproduce each marker once, in order. -/
theorem c5_scan_semantics (templateIndex : Nat) (a0 a1 a2 t : String)
    (h : templateString templateIndex = some t) :
    formatMessage3 templateIndex a0 a1 a2 =
      Except.ok (renderToks (lexTemplate t.toList) [a0, a1, a2]) :=
  formatMessage3_renders templateIndex a0 a1 a2 t h

/-- Witness for C5 at the catalog template holding a doubled percent and a
placeholder. -/
theorem c5_scan_semantics_witness :
    formatMessage3 5 "A" "B" "C" =
      Except.ok (renderToks
        (lexTemplate ("100%% certain that % exists").toList) ["A", "B", "C"]) :=
  c5_scan_semantics 5 "A" "B" "C" "100%% certain that % exists" rfl

/-- C6: the single dynamic-value overload uses a string argument verbatim as
arg0 of the template scan; a non-string argument whose restricted conversion
fails, or converts to a non-string, yields the literal fallback, and so does
a failure of the template formatting itself. -/
theorem argToStringResult_of_conv_none (conv : Value → Option Value)
    (arg : Value) (h1 : arg.isString = false) (h2 : conv arg = none) :
    argToStringResult conv arg = none := by
  cases arg <;> simp_all [argToStringResult, Value.isString]

theorem argToStringResult_of_conv_nonstring (conv : Value → Option Value)
    (arg v : Value) (h1 : arg.isString = false) (h2 : conv arg = some v)
    (h3 : v.isString = false) :
    argToStringResult conv arg = none := by
  cases arg <;> cases v <;> simp_all [argToStringResult, Value.isString]

theorem c6_single_arg_overload (conv : Value → Option Value)
    (templateIndex : Nat) (arg : Value) (t : String) :
    (∀ s, arg = Value.vstr s → templateString templateIndex = some t →
      formatMessageOne conv templateIndex arg =
        renderToks (lexTemplate t.toList) [s, "", ""]) ∧
    (arg.isString = false → conv arg = none →
      formatMessageOne conv templateIndex arg = "<error>") ∧
    (arg.isString = false →
      (∀ v, conv arg = some v → v.isString = false) →
      formatMessageOne conv templateIndex arg = "<error>") ∧
    (templateString templateIndex = none →
      formatMessageOne conv templateIndex arg = "<error>") := by
  refine ⟨?_, ?_, ?_, ?_⟩
  · intro s hs ht
    subst hs
    have h5 := formatMessage3_renders templateIndex s "" "" t ht
    simp [formatMessageOne, argToStringResult, h5]
  · intro hstr hconv
    rw [formatMessageOne, argToStringResult_of_conv_none conv arg hstr hconv]
  · intro hstr hconv
    cases hc : conv arg with
    | none =>
      rw [formatMessageOne, argToStringResult_of_conv_none conv arg hstr hc]
    | some v =>
      rw [formatMessageOne,
        argToStringResult_of_conv_nonstring conv arg v hstr hc (hconv v hc)]
  · intro ht
    have hf : ∀ s, formatMessage3 templateIndex s "" ""
        = Except.error FormatError.illegalOperation := by
      intro s
      unfold formatMessage3
      rw [ht]
    rw [formatMessageOne]
    cases argToStringResult conv arg with
    | none => rfl
    | some s => simp [hf s]

/-- Witness for C6: a verbatim string argument through a registered
template, and a failed conversion of a number argument. -/
theorem c6_single_arg_overload_witness :
    formatMessageOne (fun _ => none) 2 (Value.vstr "f") =
      renderToks (lexTemplate ("% is not a function").toList) ["f", "", ""] ∧
    formatMessageOne (fun _ => none) 2 (Value.vnum 3) = "<error>" :=
  ⟨(c6_single_arg_overload (fun _ => none) 2 (Value.vstr "f")
      "% is not a function").1 "f" rfl rfl,
   (c6_single_arg_overload (fun _ => none) 2 (Value.vnum 3)
      "% is not a function").2.1 rfl rfl⟩

theorem installMessage_undef (env : ConstructEnv) (message : Value)
    (err : ErrObj) (h : message.isUndefined = true) :
    installMessage env message err = some err := by
  unfold installMessage
  rw [h]
  rfl

theorem installMessage_some_conv (env : ConstructEnv) (message : Value)
    (err e : ErrObj) (s : String) (h : message.isUndefined = false)
    (hs : env.toStringFun message = some s)
    (he : installMessage env message err = some e) :
    e.props = err.props ++ [("message", ⟨s, true, false, true⟩)] := by
  unfold installMessage at he
  rw [h, hs] at he
  simp only [Bool.not_false, if_true] at he
  by_cases hsm : env.setMessageFails
  · rw [if_pos hsm] at he
    simp at he
  · rw [if_neg hsm] at he
    simp only [Option.some.injEq] at he
    rw [← he]

theorem installMessage_conv_fail (env : ConstructEnv) (message : Value)
    (err : ErrObj) (h : message.isUndefined = false)
    (hs : env.toStringFun message = none) :
    installMessage env message err = none := by
  unfold installMessage
  rw [h, hs]
  rfl

theorem captureDetailedStep_some (env : ConstructEnv) (sup : Bool)
    (err e : ErrObj) (he : captureDetailedStep env sup err = some e) :
    e.props = err.props ∧ e.simpleCapture = err.simpleCapture := by
  unfold captureDetailedStep at he
  by_cases hsup : sup
  · rw [hsup] at he
    simp only [Bool.not_true, Bool.false_eq_true, if_false, Option.some.injEq] at he
    rw [← he]
    exact ⟨rfl, rfl⟩
  · rw [Bool.eq_false_iff.mpr hsup] at he
    simp only [Bool.not_false, if_true] at he
    by_cases hd : env.detailedFails
    · rw [if_pos hd] at he
      simp at he
    · rw [if_neg hd] at he
      simp only [Option.some.injEq] at he
      rw [← he]
      exact ⟨rfl, rfl⟩

theorem captureSimpleStep_some (env : ConstructEnv) (newTarget : Value)
    (mode : FrameSkipMode) (err e : ErrObj)
    (he : captureSimpleStep env newTarget mode err = some e) :
    e.props = err.props ∧
    e.simpleCapture =
      some (if mode = FrameSkipMode.SKIP_FIRST && newTarget.isJSFunction then
              (FrameSkipMode.SKIP_UNTIL_SEEN, some newTarget)
            else (mode, none)) := by
  unfold captureSimpleStep at he
  by_cases hs : env.simpleFails
  · rw [if_pos hs] at he
    simp at he
  · rw [if_neg hs] at he
    simp only [Option.some.injEq] at he
    rw [← he]
    exact ⟨rfl, rfl⟩

theorem constructError_chain (env : ConstructEnv) (target : FunInfo)
    (newTarget message : Value) (mode : FrameSkipMode) (sup : Bool)
    (e : ErrObj)
    (he : constructError env target newTarget message mode sup = some e) :
    ∃ e2 e3, installMessage env message (errInitial target newTarget) = some e2 ∧
      captureDetailedStep env sup e2 = some e3 ∧
      captureSimpleStep env newTarget mode e3 = some e := by
  unfold constructError at he
  by_cases hn : env.newObjectFails
  · rw [if_pos hn] at he
    simp at he
  · rw [if_neg hn] at he
    split at he
    · simp at he
    · rename_i e2 h2
      split at he
      · simp at he
      · rename_i e3 h3
        exact ⟨e2, e3, h2, h3, he⟩

/-- C7: error construction installs no message property when the message is
undefined; a present message is coerced (by the external Object::ToString)
and installed as the only property, writable and configurable but not
enumerable, with the coerced text as its value; a failed coercion fails the
whole construction, and every failure path returns nothing rather than a
partial object. -/
theorem c7_message_property (env : ConstructEnv) (target : FunInfo)
    (newTarget message : Value) (mode : FrameSkipMode) (sup : Bool) :
    (message.isUndefined = true →
      ∀ e, constructError env target newTarget message mode sup = some e →
        e.props = []) ∧
    (∀ s, message.isUndefined = false → env.toStringFun message = some s →
      ∀ e, constructError env target newTarget message mode sup = some e →
        e.props = [("message", ⟨s, true, false, true⟩)]) ∧
    (message.isUndefined = false → env.toStringFun message = none →
      constructError env target newTarget message mode sup = none) := by
  refine ⟨?_, ?_, ?_⟩
  · intro hmsg e he
    obtain ⟨e2, e3, h2, h3, h4⟩ :=
      constructError_chain env target newTarget message mode sup e he
    rw [installMessage_undef env message _ hmsg] at h2
    have he2 := Option.some.inj h2
    have p3 := (captureDetailedStep_some env sup e2 e3 h3).1
    have p4 := (captureSimpleStep_some env newTarget mode e3 e h4).1
    rw [p4, p3, ← he2]
    rfl
  · intro s hmsg hconv e he
    obtain ⟨e2, e3, h2, h3, h4⟩ :=
      constructError_chain env target newTarget message mode sup e he
    have p2 := installMessage_some_conv env message _ e2 s hmsg hconv h2
    have p3 := (captureDetailedStep_some env sup e2 e3 h3).1
    have p4 := (captureSimpleStep_some env newTarget mode e3 e h4).1
    rw [p4, p3, p2]
    rfl
  · intro hmsg hconv
    unfold constructError
    rw [installMessage_conv_fail env message _ hmsg hconv]
    by_cases hn : env.newObjectFails
    · rw [if_pos hn]
    · rw [if_neg hn]

/-- Witness for C7 at a concrete environment: an undefined message installs
nothing, a present message installs its coerced text DONT_ENUM, a failing
coercion fails construction. -/
theorem c7_message_property_witness :
    (∀ e, constructError ⟨false, fun _ => some "m", false, false, false⟩
        ⟨0, none, "", none⟩ Value.vnull Value.undefined
        FrameSkipMode.SKIP_NONE false = some e → e.props = []) ∧
    (∀ e, constructError ⟨false, fun _ => some "m", false, false, false⟩
        ⟨0, none, "", none⟩ Value.vnull (Value.vnum 1)
        FrameSkipMode.SKIP_NONE false = some e →
        e.props = [("message", ⟨"m", true, false, true⟩)]) ∧
    constructError ⟨false, fun _ => none, false, false, false⟩
        ⟨0, none, "", none⟩ Value.vnull (Value.vnum 1)
        FrameSkipMode.SKIP_NONE false = none :=
  ⟨(c7_message_property ⟨false, fun _ => some "m", false, false, false⟩
      ⟨0, none, "", none⟩ Value.vnull Value.undefined
      FrameSkipMode.SKIP_NONE false).1 rfl,
   fun e => (c7_message_property ⟨false, fun _ => some "m", false, false, false⟩
      ⟨0, none, "", none⟩ Value.vnull (Value.vnum 1)
      FrameSkipMode.SKIP_NONE false).2.1 "m" rfl rfl e,
   (c7_message_property ⟨false, fun _ => none, false, false, false⟩
      ⟨0, none, "", none⟩ Value.vnull (Value.vnum 1)
      FrameSkipMode.SKIP_NONE false).2.2 rfl rfl⟩

/-- C8: every successfully constructed error has its simple trace captured,
under the mode the source refines before capture: SKIP_FIRST with a
JSFunction new-target becomes SKIP_UNTIL_SEEN of that new-target, every
other combination keeps the given mode with no caller. -/
theorem c8_simple_capture (env : ConstructEnv) (target : FunInfo)
    (newTarget message : Value) (mode : FrameSkipMode) (sup : Bool)
    (e : ErrObj)
    (he : constructError env target newTarget message mode sup = some e) :
    e.simpleCapture =
      some (if mode = FrameSkipMode.SKIP_FIRST && newTarget.isJSFunction then
              (FrameSkipMode.SKIP_UNTIL_SEEN, some newTarget)
            else (mode, none)) := by
  obtain ⟨e2, e3, h2, h3, h4⟩ :=
    constructError_chain env target newTarget message mode sup e he
  exact (captureSimpleStep_some env newTarget mode e3 e h4).2

/-- Witness for C8: a SKIP_FIRST construction with a function new-target
captures SKIP_UNTIL_SEEN of that function. -/
theorem c8_simple_capture_witness :
    errC8.simpleCapture =
      some (if FrameSkipMode.SKIP_FIRST = FrameSkipMode.SKIP_FIRST &&
              newTargetC8.isJSFunction then
              (FrameSkipMode.SKIP_UNTIL_SEEN, some newTargetC8)
            else (FrameSkipMode.SKIP_FIRST, none)) :=
  c8_simple_capture envC8 ⟨0, none, "", none⟩ newTargetC8 Value.undefined
    FrameSkipMode.SKIP_FIRST false errC8 rfl

theorem tryCatchAbsorb_eq (before inside : Option Value) :
    tryCatchAbsorb before inside = before := by
  cases inside <;> rfl

theorem dispatchLoop_sched_none (env : ReportEnv) (ev : Value)
    (slots : List (Option (Nat × Value))) (pending : Option Value)
    (acc : List (Nat × Value)) :
    dispatchLoop env ev slots pending none acc =
      (acc ++ (slots.filterMap id).map
          (fun p => (p.1, if p.2.isUndefined then ev else p.2)),
       pending, none) := by
  induction slots generalizing pending acc with
  | nil => simp [dispatchLoop]
  | cons s rest ih =>
    cases s with
    | none => simp [dispatchLoop, ih]
    | some p =>
      cases p with
      | mk cb data =>
        cases hcs : env.callbackSchedules cb <;>
          simp [dispatchLoop, hcs, tryCatchAbsorb_eq, ih]

/-- C9: during dispatch with no failure already scheduled, every live
listener in registration order is invoked exactly once with the message and
its data (or the snapshotted exception when the data is undefined), whatever
any callback throws or schedules: a failing callback is absorbed by its
per-listener TryCatch and does not stop later live listeners; every deferred
failure scheduled along the way (also on the default-reporter path) is
discarded, and the pending slot is restored, so nothing leaks to the
caller. -/
theorem c9_listener_isolation (env : ReportEnv) (loc : Option MessageLocation)
    (msg : MessageObject) (st : IsolateState)
    (hsched : st.scheduledException = none) :
    (reportMessage env loc msg st).invocations =
      (st.listeners.filterMap id).map
        (fun p => (p.1, if p.2.isUndefined then
            st.pendingException.getD Value.undefined
          else p.2)) ∧
    (reportMessage env loc msg st).finalScheduled = none ∧
    (reportMessage env loc msg st).finalPending = st.pendingException := by
  unfold reportMessage
  cases hls : st.listeners with
  | nil => simp
  | cons a rest =>
    rw [hsched]
    simp only [List.length_cons]
    rw [dispatchLoop_sched_none]
    cases hp : st.pendingException <;> simp

/-- Witness for C9: with listener 1 throwing and scheduling, listener 2
still runs and nothing is left scheduled. -/
theorem c9_listener_isolation_witness :
    (reportMessage envC9 none ⟨1, Value.vstr "boom"⟩ stC9).invocations =
      ((stC9.listeners.filterMap id).map
        (fun p => (p.1, if p.2.isUndefined then
            stC9.pendingException.getD Value.undefined
          else p.2))) ∧
    (reportMessage envC9 none ⟨1, Value.vstr "boom"⟩ stC9).finalScheduled = none ∧
    (reportMessage envC9 none ⟨1, Value.vstr "boom"⟩ stC9).finalPending =
      stC9.pendingException :=
  c9_listener_isolation envC9 none ⟨1, Value.vstr "boom"⟩ stC9 rfl

theorem reportMessage_normalized (env : ReportEnv) (loc : Option MessageLocation)
    (msg : MessageObject) (st : IsolateState) :
    (reportMessage env loc msg st).normalizedArgument =
      normalizeArgument env msg.argument := by
  unfold reportMessage
  by_cases h : st.listeners.length == 0 <;> simp [h]

/-- C10: when the argument of the reported message is an object and its
stringification fails, the argument is rewritten in place to the literal
text "exception" (which is not the template-formatting fallback), on the
internal-error path (restricted no-side-effects stringification) as well as
on the general-object path (Object::ToString under the silent catcher); on
success the stringified result likewise overwrites the argument. -/
theorem c10_exception_fallback (env : ReportEnv) (loc : Option MessageLocation)
    (msg : MessageObject) (st : IsolateState) (o : JSObj) :
    (msg.argument = Value.vobj o → o.isErrorObj = true →
      env.noSideEffectsToString msg.argument = none →
      (reportMessage env loc msg st).normalizedArgument =
        Value.vstr "exception") ∧
    (msg.argument = Value.vobj o → o.isErrorObj = false →
      env.objectToString msg.argument = none →
      (reportMessage env loc msg st).normalizedArgument =
        Value.vstr "exception") ∧
    (∀ v, msg.argument = Value.vobj o → o.isErrorObj = true →
      env.noSideEffectsToString msg.argument = some v →
      (reportMessage env loc msg st).normalizedArgument = v) ∧
    (∀ v, msg.argument = Value.vobj o → o.isErrorObj = false →
      env.objectToString msg.argument = some v →
      (reportMessage env loc msg st).normalizedArgument = v) ∧
    Value.vstr "exception" ≠ Value.vstr "<error>" := by
  refine ⟨?_, ?_, ?_, ?_, by simp⟩
  · intro ha herr hc
    rw [reportMessage_normalized, ha]
    rw [ha] at hc
    simp [normalizeArgument, Value.isJSObject, Value.isJSError, herr, hc]
  · intro ha herr hc
    rw [reportMessage_normalized, ha]
    rw [ha] at hc
    simp [normalizeArgument, Value.isJSObject, Value.isJSError, herr, hc]
  · intro v ha herr hc
    rw [reportMessage_normalized, ha]
    rw [ha] at hc
    simp [normalizeArgument, Value.isJSObject, Value.isJSError, herr, hc]
  · intro v ha herr hc
    rw [reportMessage_normalized, ha]
    rw [ha] at hc
    simp [normalizeArgument, Value.isJSObject, Value.isJSError, herr, hc]

/-- Witness for C10: a JSError argument whose restricted stringification
fails is rewritten to the exception fallback. -/
theorem c10_exception_fallback_witness :
    (reportMessage ⟨fun _ => none, fun _ => none, fun _ => none, fun _ => none⟩
        none ⟨0, Value.vobj errObjC10⟩ ⟨none, none, []⟩).normalizedArgument =
      Value.vstr "exception" :=
  (c10_exception_fallback
    ⟨fun _ => none, fun _ => none, fun _ => none, fun _ => none⟩
    none ⟨0, Value.vobj errObjC10⟩ ⟨none, none, []⟩ errObjC10).1 rfl rfl rfl

/-- C1 (amended): with an empty listener registry the default reporter is
invoked exactly once for the message, on the localized text (the
single-argument FormatMessage of the message template over the normalized
argument), and its line is the script name (or the unknown marker), the raw
start offset of the location, and the text when a location exists, else
just the text; no listener is invoked. -/
theorem c1_default_report (env : ReportEnv) (loc : Option MessageLocation)
    (msg : MessageObject) (st : IsolateState) (h : st.listeners = []) :
    (reportMessage env loc msg st).defaultReports =
      [defaultMessageReport loc
        (formatMessageOne env.noSideEffectsToString msg.msgType
          (normalizeArgument env msg.argument))] ∧
    (reportMessage env loc msg st).invocations = [] := by
  unfold reportMessage
  rw [h]
  simp

/-- Counterexample to C1 as stated: the default reporter prints the raw
start offset of the location (5 here), not the 1-based line number of that
offset (1 here), so its located output differs from the claimed
name-line-text format whenever offset and line differ. -/
theorem c1_default_report_counterexample :
    (reportMessage envC1 (some locC1) msgC1 stC1).defaultReports =
      ["a.js:5: boom"] ∧
    scriptC1.lineNumberAt locC1.startPos + 1 = 1 ∧
    defaultMessageReport (some locC1) "boom" ≠
      claimedDefaultReportLine locC1 "boom" := by
  refine ⟨rfl, by decide, by decide⟩

/-- Witness for the amended C1 at the concrete located message. -/
theorem c1_default_report_witness :
    (reportMessage envC1 (some locC1) msgC1 stC1).defaultReports =
      [defaultMessageReport (some locC1)
        (formatMessageOne envC1.noSideEffectsToString msgC1.msgType
          (normalizeArgument envC1 msgC1.argument))] ∧
    (reportMessage envC1 (some locC1) msgC1 stC1).invocations = [] :=
  c1_default_report envC1 (some locC1) msgC1 stC1 rfl

/-- Counterexample to C2 as stated: the invalid construction succeeds, but
GetFunctionName, IsToplevel and IsConstructor all dereference a handle the
constructor left null (rendered none), instead of returning the absent
value: they fail rather than degrade. -/
theorem c2_invalid_site_counterexample :
    callSiteInit invalidCallSiteInput = some invalidCallSite ∧
    invalidCallSite.GetFunctionName (fun _ _ => Value.vnull) = none ∧
    invalidCallSite.IsToplevel = none ∧
    invalidCallSite.IsConstructor = none :=
  ⟨rfl, rfl, rfl, rfl⟩

theorem callSiteInit_invalid (o : CallSiteInput)
    (h1 : o.funProp.isJSFunction = false)
    (h2 : o.wasmFuncIndexProp.isSmi = false) :
    callSiteInit o = some invalidCallSite := by
  unfold callSiteInit
  split
  · rename_i f hf
    rw [hf] at h1
    simp [Value.isJSFunction] at h1
  · rw [h2]
    simp [invalidCallSite]

/-- C2 (amended): a site constructed from an object bearing neither marker
is produced successfully, and the accessors that guard on the frame kind
(GetFileName, GetMethodName, GetLineNumber, GetColumnNumber, IsNative,
IsEval) return the absent value of their type, whatever the uninitialized
position reads as; but GetFunctionName, IsToplevel and IsConstructor
dereference the null function or receiver handle and fail on such a site
rather than return the absent value. -/
theorem c2_invalid_site_accessors (o : CallSiteInput) (cs : CallSite)
    (h1 : o.funProp.isJSFunction = false)
    (h2 : o.wasmFuncIndexProp.isSmi = false)
    (h3 : callSiteInit o = some cs) :
    cs.GetFileName = some Value.vnull ∧
    cs.GetMethodName = some Value.vnull ∧
    (∀ garbage : Int, cs.GetLineNumber garbage = -1) ∧
    (∀ garbage : Int, cs.GetColumnNumber garbage = -1) ∧
    cs.IsNative = false ∧
    cs.IsEval = false ∧
    (∀ wl, cs.GetFunctionName wl = none) ∧
    cs.IsToplevel = none ∧
    cs.IsConstructor = none := by
  rw [callSiteInit_invalid o h1 h2] at h3
  have hcs : cs = invalidCallSite := (Option.some.inj h3).symm
  subst hcs
  refine ⟨rfl, rfl, ?_, ?_, rfl, rfl, fun wl => rfl, rfl, rfl⟩
  · intro garbage
    simp [CallSite.GetLineNumber, CallSite.IsJavaScript, invalidCallSite]
  · intro garbage
    simp [CallSite.GetColumnNumber, CallSite.IsJavaScript, invalidCallSite]

/-- Witness for the amended C2 at the concrete invalid input. -/
theorem c2_invalid_site_accessors_witness :
    invalidCallSite.GetFileName = some Value.vnull ∧
    invalidCallSite.GetMethodName = some Value.vnull ∧
    invalidCallSite.GetLineNumber 7 = -1 ∧
    invalidCallSite.GetColumnNumber (-3) = -1 ∧
    invalidCallSite.IsNative = false ∧
    invalidCallSite.IsEval = false :=
  ⟨(c2_invalid_site_accessors invalidCallSiteInput invalidCallSite
      rfl rfl rfl).1,
   (c2_invalid_site_accessors invalidCallSiteInput invalidCallSite
      rfl rfl rfl).2.1,
   (c2_invalid_site_accessors invalidCallSiteInput invalidCallSite
      rfl rfl rfl).2.2.1 7,
   (c2_invalid_site_accessors invalidCallSiteInput invalidCallSite
      rfl rfl rfl).2.2.2.1 (-3),
   (c2_invalid_site_accessors invalidCallSiteInput invalidCallSite
      rfl rfl rfl).2.2.2.2.1,
   (c2_invalid_site_accessors invalidCallSiteInput invalidCallSite
      rfl rfl rfl).2.2.2.2.2.1⟩

theorem dupResolve_append (acc : Option String) (l t : List String) :
    dupResolve acc (l ++ t) =
      match dupResolve acc l with
      | Except.error u => Except.error u
      | Except.ok acc2 => dupResolve acc2 t := by
  cases acc with
  | some a => cases l <;> rfl
  | none =>
    cases l with
    | nil => rfl
    | cons k l2 =>
      cases l2 with
      | nil => cases t <;> rfl
      | cons k2 l3 => rfl

theorem walkKeys_dupResolve (o : JSObj) (f : FunInfo) (keys : List String)
    (acc : Option String) :
    walkKeys o f keys acc = dupResolve acc (keysMatches o f keys) := by
  induction keys generalizing acc with
  | nil => cases acc <;> rfl
  | cons k rest ih =>
    cases hk : checkMethodNameOwn o k f with
    | true =>
      cases acc with
      | some a => simp [walkKeys, keysMatches, hk, dupResolve]
      | none =>
        simp only [walkKeys, hk, if_true]
        rw [ih (some k)]
        simp only [keysMatches, List.filter_cons, hk, if_true]
        cases hm : (rest.filter (fun k => checkMethodNameOwn o k f)) <;> rfl
    | false =>
      simp only [walkKeys, hk, Bool.false_eq_true, if_false]
      rw [ih acc]
      simp only [keysMatches, List.filter_cons, hk, Bool.false_eq_true,
        if_false]

theorem chainMatches_eq (f : FunInfo) (ie gp ac : Bool) (ps : List PropEntry)
    (pr : ProtoRef) :
    chainMatches f (JSObj.mk ie gp ac ps pr) =
      if ac then []
      else
        (enumKeys ps).filter
            (fun k => checkMethodNameOwn (JSObj.mk ie gp ac ps pr) k f) ++
          (match pr with
           | ProtoRef.objProto o2 => chainMatches f o2
           | _ => []) := by
  cases ac <;> cases pr <;> rw [chainMatches] <;> first | rfl | simp

theorem walkChain_eq (f : FunInfo) (acc : Option String) (ie gp ac : Bool)
    (ps : List PropEntry) (pr : ProtoRef) :
    walkChain f acc (JSObj.mk ie gp ac ps pr) =
      if ac then Except.ok acc
      else
        match walkKeys (JSObj.mk ie gp ac ps pr) f (enumKeys ps) acc with
        | Except.error u => Except.error u
        | Except.ok acc2 =>
          match pr with
          | ProtoRef.objProto o2 => walkChain f acc2 o2
          | _ => Except.ok acc2 := by
  cases ac <;> cases pr <;> rw [walkChain]

theorem walkChain_dupResolve (f : FunInfo) (acc : Option String) (o : JSObj) :
    walkChain f acc o = dupResolve acc (chainMatches f o) := by
  match o with
  | JSObj.mk ie gp ac ps pr =>
    rw [walkChain_eq, chainMatches_eq]
    cases hac : ac with
    | true =>
      simp only [if_true]
      cases acc <;> rfl
    | false =>
      simp only [Bool.false_eq_true, if_false]
      rw [walkKeys_dupResolve]
      simp only [keysMatches]
      rw [dupResolve_append]
      cases hdr : dupResolve acc
          ((enumKeys ps).filter
            (fun k => checkMethodNameOwn (JSObj.mk ie gp false ps pr) k f)) with
      | error u => rfl
      | ok acc2 =>
        cases pr with
        | objProto o2 => exact walkChain_dupResolve f acc2 o2
        | nullProto => cases acc2 <;> rfl
        | proxyProto => cases acc2 <;> rfl

theorem getMethodNameObj_spec (f : FunInfo) (o : JSObj) :
    getMethodNameObj f o =
      match fastPathName f o with
      | some n => Value.vstr n
      | none => specMethodName f o := by
  unfold getMethodNameObj specMethodName
  cases hfp : fastPathName f o with
  | some n => rfl
  | none =>
    simp only
    rw [walkChain_dupResolve]
    cases hm : chainMatches f o with
    | nil => rfl
    | cons n t =>
      cases t with
      | nil => rfl
      | cons n2 t2 => rfl

/-- C3 (amended): GetMethodName of a JS frame first takes the declared-name
fast path: when the shared name of the function (with a get or set marker
stripped) is bound to the function anywhere on the receiver prototype
chain, that stripped name is returned immediately, whatever the walk would
find. Only otherwise does the accumulating walk decide: across the walked
portion of the chain (cut at an access check or proxy link), exactly one
matching own enumerable property occurrence returns that name, and zero or
two or more occurrences (distinct or not) return null. A null or undefined
receiver short-circuits to null before any walk. -/
theorem c3_method_name_resolution (cs : CallSite) (f : FunInfo) (r : Value)
    (o : JSObj) :
    (getMethodNameObj f o =
      match fastPathName f o with
      | some n => Value.vstr n
      | none => specMethodName f o) ∧
    (cs.funField = some f → cs.receiverField = some r →
      (r.isNull || r.isUndefined) = true →
      cs.GetMethodName = some Value.vnull) ∧
    (cs.funField = some f → cs.receiverField = some (Value.vobj o) →
      cs.GetMethodName = some (getMethodNameObj f o)) := by
  refine ⟨getMethodNameObj_spec f o, ?_, ?_⟩
  · intro h1 h2 h3
    simp [CallSite.GetMethodName, CallSite.IsJavaScript, h1, h2, h3]
  · intro h1 h2
    simp [CallSite.GetMethodName, CallSite.IsJavaScript, h1, h2,
      Value.isNull, Value.isUndefined, toObjectModel]

/-- Counterexample to C3 as stated: the function is bound under the two
distinct receiver names greet and hello, so the claim requires null, but the
declared-name fast path returns greet before the accumulating walk can
declare the ambiguity. -/
theorem c3_method_name_counterexample :
    chainMatches fC3 oC3 = ["greet", "hello"] ∧
    ("greet" : String) ≠ "hello" ∧
    siteC3.GetMethodName = some (Value.vstr "greet") ∧
    siteC3.GetMethodName ≠ some Value.vnull := by
  refine ⟨rfl, by decide, rfl, ?_⟩
  intro h
  rw [show siteC3.GetMethodName = some (Value.vstr "greet") from rfl] at h
  exact Value.noConfusion (Option.some.inj h)

/-- Witness for the amended C3 at the concrete two-name receiver. -/
theorem c3_method_name_resolution_witness :
    siteC3.GetMethodName = some (getMethodNameObj fC3 oC3) :=
  (c3_method_name_resolution siteC3 fC3 (Value.vobj oC3) oC3).2.2 rfl rfl
